import Mathlib

/-!
Verification of the Sentinel command-interception gateway.

This file is a shallow embedding of the decision pipeline of the
`sentinel` package: the data model (`models.py`), the normalizer and
hard-kill filter (`command_auditor.py`), the semantic auditor's rate
limiter (`sentinel_auditor.py`), and the orchestrating runtime
(`main.py`).  Python strings are modelled by Lean `String` (lists of
Unicode scalar values), Python `int` by `Int`, and `time.time()`
timestamps by `ℚ`.  Functions that can raise in Python are modelled
with `Option`/`Except`, `none`/`.error` standing for the exception.
-/

namespace Sentinel

/-! ## Python string helpers

The helpers below model the Python string primitives used by the code.
`str.lower`/`str.strip` are modelled on the ASCII fragment (the code and
every concrete command analysed here are ASCII apart from U+200B, on
which both are the identity). -/

/-- The apostrophe character (used pervasively by the shell-quoting code). -/
def quoteChar : Char := Char.ofNat 39

/-- The backtick character (a shell-control metacharacter). -/
def backtickChar : Char := Char.ofNat 96

/-- Model of Python whitespace for `str.strip`, `str.split` and the regex
class `\s`: space, tab, LF, CR, VT, FF. -/
def isPySpace (c : Char) : Bool :=
  c = ' ' || c = '\t' || c = '\n' || c = '\r' || c = '\x0b' || c = '\x0c'

/-- Model of `str.lower` (ASCII case mapping; the identity elsewhere,
matching Python on every string this development evaluates it on). -/
def pyLower (s : String) : String :=
  String.mk (s.data.map Char.toLower)

/-- Model of `str.strip()`: remove leading and trailing whitespace. -/
def pyStrip (s : String) : String :=
  String.mk (((s.data.dropWhile isPySpace).reverse.dropWhile isPySpace).reverse)

/-- `listStartsWith pat l` is true when `pat` is an initial segment of `l`. -/
def listStartsWith : List Char → List Char → Bool
  | [], _ => true
  | _ :: _, [] => false
  | p :: ps, c :: cs => p = c && listStartsWith ps cs

/-- Model of the Python substring test `needle in hay`. -/
def listHasInfix (hay needle : List Char) : Bool :=
  listStartsWith needle hay ||
    (match hay with
     | [] => false
     | _ :: t => listHasInfix t needle)

/-- Model of the Python substring test `needle in hay` on strings. -/
def pyContains (hay needle : String) : Bool :=
  listHasInfix hay.data needle.data

/-- Helper for `pySplit`: accumulate the current word (reversed). -/
def pySplitAux : List Char → List Char → List String
  | [], cur => if cur = [] then [] else [String.mk cur.reverse]
  | c :: cs, cur =>
    if isPySpace c then
      if cur = [] then pySplitAux cs []
      else String.mk cur.reverse :: pySplitAux cs []
    else pySplitAux cs (c :: cur)

/-- Model of `str.split()` with no arguments: split on whitespace runs,
discarding empty fields. -/
def pySplit (s : String) : List String :=
  pySplitAux s.data []

/-- Model of `s.rsplit("/", 1)[-1]`: the part after the last slash. -/
def afterLastSlash (s : String) : String :=
  String.mk ((s.data.reverse.takeWhile (· ≠ '/')).reverse)

/-! ## `shlex.split(s, posix=True)`

Model of Python's `shlex.split`: whitespace-separated tokens with single
quotes (everything literal until the closing quote), double quotes
(backslash escapes only the double quote and the backslash inside), and
backslash escapes outside quotes.  An unterminated quote raises
`ValueError("No closing quotation")` and a trailing escape raises
`ValueError("No escaped character")`; both are modelled as `.error`. -/

/-- shlex whitespace: `shlex.whitespace = " \t\r\n"`. -/
def shlexWs (c : Char) : Bool :=
  c = ' ' || c = '\t' || c = '\r' || c = '\n'

/-- Which state an escape returns to (outside quotes or inside double
quotes). -/
inductive LexRet where
  | word
  | dquote
deriving DecidableEq

/-- Lexer state: between tokens, inside a token, inside a single/double
quote, or after an escape character. -/
inductive LexState where
  | betw
  | word
  | squote
  | dquote
  | esc (ret : LexRet)

/-- Emit the pending token if it is non-empty or came from a quote. -/
def lexEmit (tok : List Char) (quoted : Bool) (acc : List String) : List String :=
  acc ++ (if tok ≠ [] || quoted then [String.mk tok.reverse] else [])

/-- The shlex state machine (token accumulated in reverse). -/
def shlexCore : List Char → LexState → List Char → Bool → List String →
    Except String (List String)
  | [], st, tok, quoted, acc =>
    match st with
    | .squote => .error "No closing quotation"
    | .dquote => .error "No closing quotation"
    | .esc _ => .error "No escaped character"
    | _ => .ok (lexEmit tok quoted acc)
  | c :: rest, st, tok, quoted, acc =>
    match st with
    | .betw =>
      if shlexWs c then shlexCore rest .betw [] false acc
      else if c = quoteChar then shlexCore rest .squote tok true acc
      else if c = '"' then shlexCore rest .dquote tok true acc
      else if c = '\\' then shlexCore rest (.esc .word) tok quoted acc
      else shlexCore rest .word (c :: tok) quoted acc
    | .word =>
      if shlexWs c then shlexCore rest .betw [] false (lexEmit tok quoted acc)
      else if c = quoteChar then shlexCore rest .squote tok true acc
      else if c = '"' then shlexCore rest .dquote tok true acc
      else if c = '\\' then shlexCore rest (.esc .word) tok quoted acc
      else shlexCore rest .word (c :: tok) quoted acc
    | .squote =>
      if c = quoteChar then shlexCore rest .word tok quoted acc
      else shlexCore rest .squote (c :: tok) quoted acc
    | .dquote =>
      if c = '"' then shlexCore rest .word tok quoted acc
      else if c = '\\' then shlexCore rest (.esc .dquote) tok quoted acc
      else shlexCore rest .dquote (c :: tok) quoted acc
    | .esc ret =>
      let retSt : LexState := match ret with | .word => .word | .dquote => .dquote
      let tok2 :=
        if ret = LexRet.dquote && c ≠ '"' && c ≠ '\\' then c :: '\\' :: tok
        else c :: tok
      shlexCore rest retSt tok2 quoted acc

/-- `shlex.split(s, posix=True)`, with `ValueError` as `.error`. -/
def shlexSplitE (s : String) : Except String (List String) :=
  shlexCore s.data .betw [] false []

/-- The `try: shlex.split(...) except ValueError: command.split()` idiom
used throughout `command_auditor.py`. -/
def shlexTokensOrFallback (s : String) : List String :=
  match shlexSplitE s with
  | .ok ts => ts
  | .error _ => pySplit s

/-! ## `bytes(payload, "utf-8").decode("unicode_escape")`

Model of the `unicode_escape` codec on the UTF-8 bytes of the payload:
non-escape bytes decode as Latin-1, backslash escapes follow Python
string-literal semantics, and a malformed escape (`\x`/`\u`/`\U` with too
few hex digits, a trailing backslash, a `\U` value above 0x10FFFF) raises
`UnicodeDecodeError`, modelled as `none`.  Two deliberate model
boundaries, marked below: `\N{...}` named escapes (they need the Unicode
name table) and escapes decoding to lone surrogates (Python `str` can
hold them, Lean `String` cannot) are modelled as failures. -/

/-- Is `n` (a byte value) an ASCII hex digit? -/
def isHexN (n : Nat) : Bool :=
  decide ((48 ≤ n ∧ n ≤ 57) ∨ (97 ≤ n ∧ n ≤ 102) ∨ (65 ≤ n ∧ n ≤ 70))

/-- Value of an ASCII hex digit byte. -/
def hexN (n : Nat) : Nat :=
  if 48 ≤ n ∧ n ≤ 57 then n - 48
  else if 97 ≤ n then n - 87
  else n - 55

/-- `chr(n)` for code points Lean can represent (`none` models both the
`ValueError` for n > 0x10FFFF and the lone-surrogate model boundary). -/
def mkCharOpt (n : Nat) : Option Char :=
  if n.isValidChar then some (Char.ofNat n) else none

/-- Prepend a character to an optional decoded tail. -/
def consOpt (c : Char) (o : Option (List Char)) : Option (List Char) :=
  o.map (c :: ·)

/-- The `unicode_escape` decoder over byte values.  The first argument
is recursion fuel: every step consumes at least one byte and spends one
unit, so the wrapper's `l.length` is always enough and the 0-fuel arm is
unreachable. -/
def uescAuxF : Nat → List Nat → Option (List Char)
  | _, [] => some []
  | 0, _ :: _ => none
  | fuel + 1, 92 :: r =>
    match r with
    | [] => none
    | e :: r1 =>
      if e = 10 then uescAuxF fuel r1
      else if e = 92 then consOpt '\\' (uescAuxF fuel r1)
      else if e = 39 then consOpt quoteChar (uescAuxF fuel r1)
      else if e = 34 then consOpt '"' (uescAuxF fuel r1)
      else if e = 97 then consOpt (Char.ofNat 7) (uescAuxF fuel r1)
      else if e = 98 then consOpt (Char.ofNat 8) (uescAuxF fuel r1)
      else if e = 102 then consOpt (Char.ofNat 12) (uescAuxF fuel r1)
      else if e = 110 then consOpt '\n' (uescAuxF fuel r1)
      else if e = 114 then consOpt '\r' (uescAuxF fuel r1)
      else if e = 116 then consOpt '\t' (uescAuxF fuel r1)
      else if e = 118 then consOpt (Char.ofNat 11) (uescAuxF fuel r1)
      else if 48 ≤ e ∧ e ≤ 55 then
        match r1 with
        | d2 :: d3 :: r3 =>
          if 48 ≤ d2 ∧ d2 ≤ 55 then
            if 48 ≤ d3 ∧ d3 ≤ 55 then
              consOpt (Char.ofNat (64 * (e - 48) + 8 * (d2 - 48) + (d3 - 48))) (uescAuxF fuel r3)
            else consOpt (Char.ofNat (8 * (e - 48) + (d2 - 48))) (uescAuxF fuel (d3 :: r3))
          else consOpt (Char.ofNat (e - 48)) (uescAuxF fuel (d2 :: d3 :: r3))
        | [d2] =>
          if 48 ≤ d2 ∧ d2 ≤ 55 then
            consOpt (Char.ofNat (8 * (e - 48) + (d2 - 48))) (uescAuxF fuel ([] : List Nat))
          else consOpt (Char.ofNat (e - 48)) (uescAuxF fuel [d2])
        | [] => consOpt (Char.ofNat (e - 48)) (uescAuxF fuel ([] : List Nat))
      else if e = 120 then
        match r1 with
        | h1 :: h2 :: r2 =>
          if isHexN h1 && isHexN h2 then
            consOpt (Char.ofNat (16 * hexN h1 + hexN h2)) (uescAuxF fuel r2)
          else none
        | _ => none
      else if e = 117 then
        match r1 with
        | a :: b :: c :: d :: r2 =>
          if isHexN a && isHexN b && isHexN c && isHexN d then
            match mkCharOpt (4096 * hexN a + 256 * hexN b + 16 * hexN c + hexN d) with
            | some ch => consOpt ch (uescAuxF fuel r2)
            | none => none
          else none
        | _ => none
      else if e = 85 then
        match r1 with
        | a :: b :: c :: d :: f :: g :: h :: i :: r2 =>
          if isHexN a && isHexN b && isHexN c && isHexN d &&
              isHexN f && isHexN g && isHexN h && isHexN i then
            match mkCharOpt (268435456 * hexN a + 16777216 * hexN b + 1048576 * hexN c +
                65536 * hexN d + 4096 * hexN f + 256 * hexN g + 16 * hexN h + hexN i) with
            | some ch => consOpt ch (uescAuxF fuel r2)
            | none => none
          else none
        | _ => none
      else if e = 78 then none
      else consOpt '\\' (consOpt (Char.ofNat e) (uescAuxF fuel r1))
  | fuel + 1, b :: r => consOpt (Char.ofNat b) (uescAuxF fuel r)

/-- The `unicode_escape` decoder over byte values. -/
def uescAux (l : List Nat) : Option (List Char) :=
  uescAuxF l.length l

/-- The UTF-8 encoding of one scalar value (`bytes(·, "utf-8")`). -/
def utf8Bytes (c : Char) : List Nat :=
  let n := c.toNat
  if n < 128 then [n]
  else if n < 2048 then [192 + n / 64, 128 + n % 64]
  else if n < 65536 then [224 + n / 4096, 128 + (n / 64) % 64, 128 + n % 64]
  else [240 + n / 262144, 128 + (n / 4096) % 64, 128 + (n / 64) % 64, 128 + n % 64]

/-- `bytes(p, "utf-8").decode("unicode_escape")`, `none` on decode error. -/
def pyUnicodeEscape (p : String) : Option String :=
  (uescAux (p.data.flatMap utf8Bytes)).map String.mk

/-! ## `_normalize_command` and its helper passes -/

/-- The body of the `_replace` closure in `_decode_ansi_c_strings`: decode
the payload, keeping the original fragment when decoding fails
(the `except` branch). -/
def ansiReplacePayload (p : String) : String :=
  (pyUnicodeEscape p).getD p

/-- Split a character list at the first apostrophe (the `[^']*'` part of
the ANSI-C-quoting regex). -/
def splitAtQuote : List Char → Option (List Char × List Char)
  | [] => none
  | c :: r =>
    if c = quoteChar then some ([], r)
    else (splitAtQuote r).map fun pq => (c :: pq.1, pq.2)

/-- `re.sub(r"\$'([^']*)'", _replace, s)`: scan for `$'`, decode up to the
closing apostrophe, keep everything else.  When no closing apostrophe
remains, nothing later can match, so the rest is kept verbatim.  Fuel as
in `uescAuxF`. -/
def ansiDecodeAuxF : Nat → List Char → List Char
  | _, [] => []
  | 0, l => l
  | fuel + 1, c :: r =>
    if c = '$' then
      match r with
      | [] => [c]
      | q :: r2 =>
        if q = quoteChar then
          match splitAtQuote r2 with
          | some (payload, rest) =>
            (ansiReplacePayload (String.mk payload)).data ++ ansiDecodeAuxF fuel rest
          | none => c :: q :: r2
        else c :: ansiDecodeAuxF fuel (q :: r2)
    else c :: ansiDecodeAuxF fuel r

/-- The ANSI-C-quoting substitution pass. -/
def ansiDecodeAux (l : List Char) : List Char :=
  ansiDecodeAuxF l.length l

/-- `_decode_ansi_c_strings`. -/
def decodeAnsiCStrings (s : String) : String :=
  String.mk (ansiDecodeAux s.data)

/-- Is `c` an ASCII hex digit character? -/
def isHexChar (c : Char) : Bool :=
  decide (('0' ≤ c ∧ c ≤ '9') ∨ ('a' ≤ c ∧ c ≤ 'f') ∨ ('A' ≤ c ∧ c ≤ 'F'))

/-- Value of an ASCII hex digit character. -/
def hexCharVal (c : Char) : Nat :=
  if '0' ≤ c ∧ c ≤ '9' then c.toNat - 48
  else if 'a' ≤ c then c.toNat - 87
  else c.toNat - 55

/-- `re.sub(r"\\x([0-9a-fA-F]{2})", chr ∘ hex, s)` (values ≤ 0xFF never
make `chr` raise). -/
def hexSubAuxF : Nat → List Char → List Char
  | _, [] => []
  | 0, l => l
  | fuel + 1, '\\' :: r =>
    match r with
    | 'x' :: h1 :: h2 :: r2 =>
      if isHexChar h1 && isHexChar h2 then
        Char.ofNat (16 * hexCharVal h1 + hexCharVal h2) :: hexSubAuxF fuel r2
      else '\\' :: hexSubAuxF fuel ('x' :: h1 :: h2 :: r2)
    | other => '\\' :: hexSubAuxF fuel other
  | fuel + 1, c :: r => c :: hexSubAuxF fuel r

/-- The `\x` substitution pass. -/
def hexSubAux (l : List Char) : List Char :=
  hexSubAuxF l.length l

/-- `re.sub(r"\\u([0-9a-fA-F]{4})", chr ∘ hex, s)`.  `chr` never raises
here; `none` marks only the lone-surrogate model boundary. -/
def uSubAuxF : Nat → List Char → Option (List Char)
  | _, [] => some []
  | 0, _ :: _ => none
  | fuel + 1, '\\' :: r =>
    match r with
    | 'u' :: a :: b :: c :: d :: r2 =>
      if isHexChar a && isHexChar b && isHexChar c && isHexChar d then
        match mkCharOpt (4096 * hexCharVal a + 256 * hexCharVal b +
            16 * hexCharVal c + hexCharVal d) with
        | some ch => consOpt ch (uSubAuxF fuel r2)
        | none => none
      else consOpt '\\' (uSubAuxF fuel ('u' :: a :: b :: c :: d :: r2))
    | other => consOpt '\\' (uSubAuxF fuel other)
  | fuel + 1, c :: r => consOpt c (uSubAuxF fuel r)

/-- The `\u` substitution pass. -/
def uSubAux (l : List Char) : Option (List Char) :=
  uSubAuxF l.length l

/-- `re.sub(r"\\U([0-9a-fA-F]{8})", chr ∘ hex, s)`.  A value above
0x10FFFF makes `chr` raise `ValueError`, which nothing in
`_normalize_command` catches: that is the `none` outcome. -/
def bigUSubAuxF : Nat → List Char → Option (List Char)
  | _, [] => some []
  | 0, _ :: _ => none
  | fuel + 1, '\\' :: r =>
    match r with
    | 'U' :: a :: b :: c :: d :: f :: g :: h :: i :: r2 =>
      if isHexChar a && isHexChar b && isHexChar c && isHexChar d &&
          isHexChar f && isHexChar g && isHexChar h && isHexChar i then
        match mkCharOpt (268435456 * hexCharVal a + 16777216 * hexCharVal b +
            1048576 * hexCharVal c + 65536 * hexCharVal d + 4096 * hexCharVal f +
            256 * hexCharVal g + 16 * hexCharVal h + hexCharVal i) with
        | some ch => consOpt ch (bigUSubAuxF fuel r2)
        | none => none
      else consOpt '\\' (bigUSubAuxF fuel ('U' :: a :: b :: c :: d :: f :: g :: h :: i :: r2))
    | other => consOpt '\\' (bigUSubAuxF fuel other)
  | fuel + 1, c :: r => consOpt c (bigUSubAuxF fuel r)

/-- The `\U` substitution pass. -/
def bigUSubAux (l : List Char) : Option (List Char) :=
  bigUSubAuxF l.length l

/-- Is `c` an ASCII octal digit character? -/
def isOctChar (c : Char) : Bool :=
  decide ('0' ≤ c ∧ c ≤ '7')

/-- `re.sub(r"\\([0-7]{1,3})", chr ∘ oct, s)` (values ≤ 0o777 never make
`chr` raise). -/
def octSubAuxF : Nat → List Char → List Char
  | _, [] => []
  | 0, l => l
  | fuel + 1, '\\' :: r =>
    match r with
    | d1 :: d2 :: d3 :: r3 =>
      if isOctChar d1 then
        if isOctChar d2 then
          if isOctChar d3 then
            Char.ofNat (64 * (d1.toNat - 48) + 8 * (d2.toNat - 48) + (d3.toNat - 48)) ::
              octSubAuxF fuel r3
          else Char.ofNat (8 * (d1.toNat - 48) + (d2.toNat - 48)) :: octSubAuxF fuel (d3 :: r3)
        else Char.ofNat (d1.toNat - 48) :: octSubAuxF fuel (d2 :: d3 :: r3)
      else '\\' :: octSubAuxF fuel (d1 :: d2 :: d3 :: r3)
    | [d1, d2] =>
      if isOctChar d1 then
        if isOctChar d2 then [Char.ofNat (8 * (d1.toNat - 48) + (d2.toNat - 48))]
        else Char.ofNat (d1.toNat - 48) :: octSubAuxF fuel [d2]
      else '\\' :: octSubAuxF fuel [d1, d2]
    | [d1] =>
      if isOctChar d1 then [Char.ofNat (d1.toNat - 48)]
      else '\\' :: octSubAuxF fuel [d1]
    | [] => ['\\']
  | fuel + 1, c :: r => c :: octSubAuxF fuel r

/-- The octal substitution pass. -/
def octSubAux (l : List Char) : List Char :=
  octSubAuxF l.length l

/-- `_decode_common_escapes`: the early return when no backslash is
present, then the four substitution passes in source order.  `none`
models the uncaught `ValueError` from `chr` in the `\U` pass. -/
def decodeCommonEscapes (s : String) : Option String :=
  if pyContains s "\\" = false then some s
  else
    match uSubAux (hexSubAux s.data) with
    | none => none
    | some l2 =>
      match bigUSubAux l2 with
      | none => none
      | some l3 => some (String.mk (octSubAux l3))

/-- `re.sub(r"\\\r?\n", "", s)`: join escaped newlines. -/
def bsNlAux : List Char → List Char
  | '\\' :: '\r' :: '\n' :: r => bsNlAux r
  | '\\' :: '\n' :: r => bsNlAux r
  | c :: r => c :: bsNlAux r
  | [] => []

/-- `re.sub(r"\\+([^\s])", r"\1", s)`: a maximal backslash run followed by
a non-whitespace character collapses to that character; a run followed by
whitespace or the end of the string collapses to a single backslash (the
last backslash of the run matches `[^\s]` after backtracking). -/
def bsNonspaceAuxF : Nat → List Char → List Char
  | _, [] => []
  | 0, l => l
  | fuel + 1, c :: r =>
    if c = '\\' then
      match r.dropWhile (· = '\\') with
      | [] => ['\\']
      | d :: r2 =>
        if isPySpace d then '\\' :: bsNonspaceAuxF fuel (d :: r2)
        else d :: bsNonspaceAuxF fuel r2
    else c :: bsNonspaceAuxF fuel r

/-- The backslash-before-nonspace collapse pass. -/
def bsNonspaceAux (l : List Char) : List Char :=
  bsNonspaceAuxF l.length l

/-- `re.sub(r"\\+\s+", " ", s)`: a backslash run followed by whitespace
becomes a single space; a run not followed by whitespace is kept. -/
def bsSpaceAuxF : Nat → List Char → List Char
  | _, [] => []
  | 0, l => l
  | fuel + 1, c :: r =>
    if c = '\\' then
      match r.dropWhile (· = '\\') with
      | [] => '\\' :: r
      | d :: r2 =>
        if isPySpace d then ' ' :: bsSpaceAuxF fuel ((d :: r2).dropWhile isPySpace)
        else '\\' :: (r.takeWhile (· = '\\')) ++ bsSpaceAuxF fuel (d :: r2)
    else c :: bsSpaceAuxF fuel r

/-- The backslash-before-whitespace collapse pass. -/
def bsSpaceAux (l : List Char) : List Char :=
  bsSpaceAuxF l.length l

/-- `re.sub(r"\s+", " ", s)`: collapse whitespace runs. -/
def wsCollapseAuxF : Nat → List Char → List Char
  | _, [] => []
  | 0, l => l
  | fuel + 1, c :: r =>
    if isPySpace c then ' ' :: wsCollapseAuxF fuel (r.dropWhile isPySpace)
    else c :: wsCollapseAuxF fuel r

/-- The whitespace collapse pass. -/
def wsCollapseAux (l : List Char) : List Char :=
  wsCollapseAuxF l.length l

/-- `s.replace("\u200b", "")`. -/
def removeZeroWidth (s : String) : String :=
  String.mk (s.data.filter (· ≠ Char.ofNat 0x200B))

/-- Model of `unicodedata.normalize("NFKC", ·)`, restricted to the
fragment on which it is the identity: strings of ASCII characters and
U+200B, none of which is changed by compatibility decomposition or
canonical composition.  Every concrete string this development evaluates
lies in that fragment; full NFKC would require the Unicode character
database. -/
def nfkc (s : String) : String := s

/-- `CommandAuditor._normalize_command`.  `none` models the uncaught
`ValueError` escaping from `_decode_common_escapes` (see
`bigUSubAux`). -/
def normalizeCommand (s : String) : Option String :=
  match decodeCommonEscapes (decodeAnsiCStrings (removeZeroWidth (nfkc s))) with
  | none => none
  | some t =>
    some (pyStrip (String.mk (wsCollapseAux (bsSpaceAux (bsNonspaceAux (bsNlAux t.data))))))

/-! ## `command_auditor.py`: configuration and helpers -/

/-- `command_auditor.HardKillConfig` (tuples modelled as lists). -/
structure HardKillConfig where
  blocked_strings : List String
  blocked_paths : List String
  blocked_tools : List String
  blocked_network_tools : List String
  whitelisted_domains : List String
  lockdown_mode : Bool
  allowed_commands : List String

/-- The regex part of `_contains_shell_control`:
`re.search(r"(?:\|\||&&|[;|`<>])", s)`.  A single `|` is already matched
by the character class, so the search succeeds exactly when the string
contains one of `;`, `|`, a backtick, `<`, `>`, or two adjacent `&`. -/
def shellControlSearch : List Char → Bool
  | [] => false
  | c :: r =>
    (c = ';' || c = '|' || c = backtickChar || c = '<' || c = '>') ||
    (c = '&' && (match r with | d :: _ => d = '&' | [] => false)) ||
    shellControlSearch r

/-- `CommandAuditor._contains_shell_control`. -/
def containsShellControl (s : String) : Bool :=
  pyContains s "$(" || pyContains s "\n" || pyContains s "\r" ||
    shellControlSearch s.data

/-- `CommandAuditor._is_safe_lockdown_suffix`: empty or all-whitespace
suffixes are safe, otherwise the first character after `lstrip()` must
not match `^(?:[;&|`<>]|\$\()`. -/
def isSafeLockdownSuffix (suffix : String) : Bool :=
  if suffix = "" then true
  else
    match suffix.data.dropWhile isPySpace with
    | [] => true
    | c :: rest =>
      !(c = ';' || c = '&' || c = '|' || c = backtickChar || c = '<' || c = '>' ||
        (c = '$' && (match rest with | d :: _ => d = '(' | [] => false)))

/-- Is `c` an ASCII letter, digit or underscore? -/
def isIdentChar (c : Char) : Bool :=
  decide (('A' ≤ c ∧ c ≤ 'Z') ∨ ('a' ≤ c ∧ c ≤ 'z') ∨ ('0' ≤ c ∧ c ≤ '9') ∨ c = '_')

/-- Is `c` an ASCII letter or underscore? -/
def isIdentStart (c : Char) : Bool :=
  decide (('A' ≤ c ∧ c ≤ 'Z') ∨ ('a' ≤ c ∧ c ≤ 'z') ∨ c = '_')

/-- `ENV_ASSIGNMENT_RE.fullmatch(t)` for
`^[A-Za-z_][A-Za-z0-9_]*=.*$`: an identifier, then `=`, then anything
without a newline (`.` does not match `\n`). -/
def isEnvAssignment (t : String) : Bool :=
  match t.data with
  | [] => false
  | c :: rest =>
    isIdentStart c &&
    (match rest.dropWhile isIdentChar with
     | '=' :: tail => !(tail.contains '\n')
     | _ => false)

/-- Skip `env` flags and `VAR=value` assignments
(the `while start_index < len(tokens)` loop of `_extract_executable`). -/
def envSkip : List String → List String
  | [] => []
  | tok :: rest =>
    let s := pyStrip tok
    if s = "" then envSkip rest
    else if s = "--" then rest
    else if listStartsWith ['-'] s.data then envSkip rest
    else if isEnvAssignment s then envSkip rest
    else tok :: rest

/-- The final scan of `_extract_executable`: the first token that is
neither empty nor a `VAR=value` assignment, lowercased, basename only. -/
def findExec : List String → Option String
  | [] => none
  | tok :: rest =>
    let s := pyStrip tok
    if s = "" || isEnvAssignment s then findExec rest
    else some (afterLastSlash (pyLower s))

/-- `CommandAuditor._extract_executable`. -/
def extractExecutable (command : String) : Option String :=
  let tokens := shlexTokensOrFallback command
  match tokens with
  | [] => none
  | t0 :: rest =>
    let firstTok := afterLastSlash (pyLower (pyStrip t0))
    if firstTok = "env" then findExec (envSkip rest)
    else findExec (t0 :: rest)

/-- Is `c` an ASCII digit? -/
def isDigitChar (c : Char) : Bool :=
  decide ('0' ≤ c ∧ c ≤ '9')

/-- The `(\.\d+)*` tail of the python-version regex. -/
def verAfterDigitsF : Nat → List Char → Bool
  | _, [] => true
  | 0, _ :: _ => false
  | fuel + 1, '.' :: rest =>
    (rest.takeWhile isDigitChar ≠ []) && verAfterDigitsF fuel (rest.dropWhile isDigitChar)
  | _ + 1, _ :: _ => false

/-- The `(\.\d+)*` tail check. -/
def verAfterDigits (l : List Char) : Bool :=
  verAfterDigitsF l.length l

/-- `re.fullmatch(r"python(?:\d+(?:\.\d+)*)?", candidate)`. -/
def pythonVersionMatch (candidate : String) : Bool :=
  listStartsWith "python".data candidate.data &&
  (let tail := candidate.data.drop 6
   tail = [] ||
   ((tail.takeWhile isDigitChar ≠ []) && verAfterDigits (tail.dropWhile isDigitChar)))

/-- `CommandAuditor._match_blocked_tool`. -/
def matchBlockedTool (cfg : HardKillConfig) (command : String) : Option String :=
  match extractExecutable command with
  | none => none
  | some candidate =>
    cfg.blocked_tools.findSome? fun blockedTool =>
      let blocked := pyStrip (pyLower blockedTool)
      if candidate = blocked then some blockedTool
      else if blocked = "python" && pythonVersionMatch candidate then some blockedTool
      else none

/-- `CommandAuditor._contains_network_tool`. -/
def containsNetworkTool (cfg : HardKillConfig) (command : String) : Bool :=
  match extractExecutable command with
  | none => false
  | some executable =>
    cfg.blocked_network_tools.any fun tool => executable = pyStrip (pyLower tool)

/-- The regex part of `_contains_base64_shell_exec`:
`re.search(r"(?:\||&&|;)\s*(?:bash|sh)\b", s)`.  After the separator the
whitespace run is skipped, then `bash` or `sh` must follow with a word
boundary after it. -/
def shellInvokeAfter (l : List Char) : Bool :=
  let afterWs := l.dropWhile isPySpace
  (listStartsWith "bash".data afterWs &&
    (match afterWs.drop 4 with | [] => true | c :: _ => !isIdentChar c)) ||
  (listStartsWith "sh".data afterWs &&
    (match afterWs.drop 2 with | [] => true | c :: _ => !isIdentChar c))

/-- Scan for `(?:\||&&|;)` followed by an optional whitespace run and a
shell name. -/
def shellPipeSearch : List Char → Bool
  | [] => false
  | c :: r =>
    ((c = '|' || c = ';') && shellInvokeAfter r) ||
    (c = '&' && (match r with
                 | d :: r2 => d = '&' && shellInvokeAfter r2
                 | [] => false)) ||
    shellPipeSearch r

/-- `CommandAuditor._contains_base64_shell_exec` (applied to the lowered
command). -/
def containsBase64ShellExec (loweredCommand : String) : Bool :=
  (pyContains loweredCommand "base64 -d" || pyContains loweredCommand "base64 --decode") &&
    shellPipeSearch loweredCommand.data

/-- `CommandAuditor._extract_urls`: shell-tokenize (a `ValueError` returns
the empty list), collect tokens starting with a literal scheme, and fall
back to the regex `https?://[^\s'\"]+` over the raw command. -/
def extractUrlsRegexF : Nat → List Char → List String
  | _, [] => []
  | 0, _ :: _ => []
  | fuel + 1, c :: r =>
    if c = 'h' && (listStartsWith "ttps://".data r || listStartsWith "ttp://".data r) then
      let schemeLen := if listStartsWith "ttps://".data r then 7 else 6
      let afterScheme := r.drop schemeLen
      let body := afterScheme.takeWhile fun ch =>
        !(isPySpace ch || ch = quoteChar || ch = '"')
      match body with
      | [] => extractUrlsRegexF fuel r
      | _ =>
        String.mk ('h' :: (r.take schemeLen) ++ body) ::
          extractUrlsRegexF fuel (afterScheme.drop body.length)
    else extractUrlsRegexF fuel r

/-- The raw-regex URL scan. -/
def extractUrlsRegex (l : List Char) : List String :=
  extractUrlsRegexF l.length l

/-- `CommandAuditor._extract_urls`. -/
def extractUrls (command : String) : List String :=
  match shlexSplitE command with
  | .error _ => []
  | .ok tokens =>
    let urls := tokens.filter fun token =>
      listStartsWith "http://".data token.data || listStartsWith "https://".data token.data
    if urls ≠ [] then urls
    else extractUrlsRegex command.data

/-- `urllib.parse.urlparse(url).hostname` for `http(s)` URLs: the netloc
runs to the first `/`, `?` or `#`; userinfo before the last `@` is
dropped; a bracketed IPv6 host keeps the part inside the brackets,
otherwise the part before the first `:` is taken; empty gives `None`,
otherwise the lowercased host. -/
def extractDomain (url : String) : Option String :=
  let afterScheme :=
    if listStartsWith "https://".data url.data then url.data.drop 8
    else if listStartsWith "http://".data url.data then url.data.drop 7
    else []
  let netloc := afterScheme.takeWhile fun c => !(c = '/' || c = '?' || c = '#')
  let hostinfo := (netloc.reverse.takeWhile (· ≠ '@')).reverse
  let host :=
    match hostinfo with
    | '[' :: rest => rest.takeWhile (· ≠ ']')
    | _ => hostinfo.takeWhile (· ≠ ':')
  if host = [] then none
  else some (pyLower (String.mk host))

/-- `CommandAuditor._is_whitelisted_domain`. -/
def isWhitelistedDomain (cfg : HardKillConfig) (domain : String) : Bool :=
  cfg.whitelisted_domains.any fun allowed =>
    let candidate := pyStrip (pyLower allowed)
    domain = candidate ||
      listStartsWith ("." ++ candidate).data.reverse domain.data.reverse

/-! ## `command_auditor.py`: lockdown allowlist and the hard-kill filter -/

/-- One iteration of the `for allowed in self.config.allowed_commands`
loop of `_is_allowed_in_lockdown`, given the already normalized and
lowercased entry. -/
def lockdownEntryMatches (normCmd firstTok firstBase allowedNorm : String) : Bool :=
  if allowedNorm = "" then false
  else
    (if pyContains allowedNorm " " then
       normCmd = allowedNorm ||
         (listStartsWith allowedNorm.data normCmd.data &&
           isSafeLockdownSuffix (String.mk (normCmd.data.drop allowedNorm.data.length)))
     else
       normCmd = allowedNorm ||
         listStartsWith (allowedNorm ++ " ").data normCmd.data) ||
    firstTok = allowedNorm || firstBase = allowedNorm

/-- The entry loop of `_is_allowed_in_lockdown`; `none` models the
exception raised when `_normalize_command` of an entry raises. -/
def lockdownLoop (normCmd firstTok firstBase : String) : List String → Option Bool
  | [] => some false
  | a :: rest =>
    match normalizeCommand a with
    | none => none
    | some an =>
      if lockdownEntryMatches normCmd firstTok firstBase (pyLower an) then some true
      else lockdownLoop normCmd firstTok firstBase rest

/-- `CommandAuditor._is_allowed_in_lockdown`. -/
def isAllowedInLockdown (cfg : HardKillConfig) (command : String) : Option Bool :=
  if cfg.allowed_commands = [] then some false
  else
    let normCmd := pyLower (pyStrip command)
    if containsShellControl normCmd then some false
    else
      let tokens := shlexTokensOrFallback command
      let firstTok := match tokens with | [] => "" | t :: _ => pyLower t
      let firstBase := afterLastSlash firstTok
      lockdownLoop normCmd firstTok firstBase cfg.allowed_commands

/-! ## `models.py`: the `AuditDecision` value -/

/-- `models.AuditDecision`: the decision value produced by every layer. -/
structure AuditDecision where
  allowed : Bool
  risk_score : Int
  reason : String
deriving DecidableEq, Repr

/-- The clamping expression `int(max(0, min(10, r)))` from `models.py`. -/
def clamp10 (r : Int) : Int := max 0 (min 10 r)

/-- `AuditDecision.reject`: classmethod constructing a rejected decision
with the risk score clamped into [0, 10]. -/
def AuditDecision.reject (reason : String) (risk_score : Int) : AuditDecision :=
  ⟨false, clamp10 risk_score, reason⟩

/-- The dictionary produced by `AuditDecision.to_dict` (exactly the keys
`allowed`, `risk_score`, `reason`). -/
structure DecisionDict where
  allowed : Bool
  risk_score : Int
  reason : String
deriving DecidableEq, Repr

/-- `AuditDecision.to_dict`: the payload dictionary, with the risk score
clamped at serialization time. -/
def AuditDecision.toDict (d : AuditDecision) : DecisionDict :=
  ⟨d.allowed, clamp10 d.risk_score, d.reason⟩

/-- `sentinel_auditor.py` line 111: the decision built from a parsed judge
response, with the call-site clamp `int(max(0, min(10, int(...))))` and the
`str(...).strip() or "No reason provided"` default. -/
def parsedJudgeDecision (allowed : Bool) (risk : Int) (reasonRaw : String) : AuditDecision :=
  ⟨allowed, clamp10 risk,
    if pyStrip reasonRaw = "" then "No reason provided" else pyStrip reasonRaw⟩

/-- `main.py` line 182: the decision synthesized for a policy `allow`. -/
def policyAllowDecision (ruleName : String) : AuditDecision :=
  ⟨true, 0, "Allowed by policy: " ++ ruleName⟩

/-- `main.py` line 191: the decision synthesized on the bypass path. -/
def hitlApprovedDecision : AuditDecision :=
  ⟨true, 0, "User Approved via HITL"⟩

/-- `command_auditor.py` line 41: the decision for a lockdown-allowlisted
command. -/
def lockdownAllowedDecision : AuditDecision :=
  ⟨true, 0, "Command explicitly allowed by policy."⟩

/-! ## `command_auditor.py`: `_hard_kill_filter` and `audit` -/

/-- The first entry of `blocked` whose lowercased form is a substring of
the lowered command (the `for blocked in ...` loops of the filter). -/
def findBlockedString (blocked : List String) (lowered : String) : Option String :=
  blocked.find? fun b => pyContains lowered (pyLower b)

/-- The `for url in urls` loop of the network check: `None` when every
URL parses to a whitelisted domain. -/
def networkUrlCheck (cfg : HardKillConfig) : List String → Option AuditDecision
  | [] => none
  | url :: rest =>
    match extractDomain url with
    | none =>
      some (AuditDecision.reject ("Could not parse domain from network target: " ++ url) 10)
    | some domain =>
      if !isWhitelistedDomain cfg domain then
        some (AuditDecision.reject ("Outbound network domain not whitelisted: " ++ domain) 10)
      else networkUrlCheck cfg rest

/-- `CommandAuditor._hard_kill_filter`.  The outer `Option` models the
exception that `_is_allowed_in_lockdown` can propagate (normalization of
an allowlist entry); the inner `Option` is the filter's own
`Optional[AuditDecision]` (`none` = defer to the semantic layer). -/
def hardKillFilter (cfg : HardKillConfig) (command : String) : Option (Option AuditDecision) :=
  if pyStrip command = "" then
    some (some (AuditDecision.reject "Empty command is rejected under fail-closed policy." 10))
  else
    (if cfg.lockdown_mode then (isAllowedInLockdown cfg command).map (fun b => !b)
     else some false).bind fun lockdownReject =>
    if lockdownReject then
      some (some (AuditDecision.reject "Lockdown mode active: command not in allowed_commands." 10))
    else
      let lowered := pyLower command
      match findBlockedString cfg.blocked_strings lowered with
      | some b => some (some (AuditDecision.reject ("Blocked token detected: " ++ b) 10))
      | none =>
        match findBlockedString cfg.blocked_paths lowered with
        | some p =>
          some (some (AuditDecision.reject ("Blocked path access detected: " ++ p) 10))
        | none =>
          match matchBlockedTool cfg command with
          | some t => some (some (AuditDecision.reject ("Blocked tool detected: " ++ t) 10))
          | none =>
            if containsBase64ShellExec lowered then
              some (some (AuditDecision.reject
                "Obfuscated payload execution pattern detected: base64 to shell." 10))
            else if containsNetworkTool cfg command then
              match extractUrls command with
              | [] => some (some (AuditDecision.reject
                  "Network command without explicit URL/domain is rejected." 10))
              | urls => some (networkUrlCheck cfg urls)
            else some none

/-- `CommandAuditor.audit`.  The semantic auditor and its constitution
context are abstracted as an optional function from the normalized
command to a decision (`self.llm_auditor`); `none` on the outside models
an exception escaping `audit` (see `normalizeCommand`). -/
def audit (cfg : HardKillConfig) (llm : Option (String → AuditDecision))
    (command : String) : Option AuditDecision :=
  match normalizeCommand command with
  | none => none
  | some normalized =>
    match hardKillFilter cfg normalized with
    | none => none
    | some (some d) => some d
    | some none =>
      match isAllowedInLockdown cfg normalized with
      | none => none
      | some true => some lockdownAllowedDecision
      | some false =>
        match llm with
        | none =>
          some (AuditDecision.reject "LLM auditor unavailable; fail-closed policy applied." 9)
        | some f => some (f normalized)

/-! ## `sentinel_auditor.py`: the rate limiter of `audit_command`

`time.time()` values are modelled as rationals.  The window cap, window
and cooldown lengths are the constructor constants
(`_max_requests_per_window = 10`, `_window_seconds = 60`,
`_cooldown_seconds = 30`). -/

/-- The mutable throttle state owned by a `SentinelAuditor` instance:
`_request_history` (a deque, oldest first) and `_last_cooldown_time`
(initially `0.0`). -/
structure AuditorState where
  history : List ℚ
  lastCooldown : ℚ
deriving DecidableEq, Repr

/-- Python `int()` on a float/rational: truncation toward zero. -/
def pyIntTrunc (q : ℚ) : Int :=
  if 0 ≤ q then ⌊q⌋ else ⌈q⌉

/-- The cooldown rejection reason, remaining seconds included. -/
def cooldownReason (remaining : Int) : String :=
  "Sentinel Throttle: Cool-down active. " ++ toString remaining ++ "s remaining."

/-- The window-cap rejection reason. -/
def throttleLimitReason : String :=
  "Sentinel Throttle: Limit exceeded (10 req/60s). Cooling down..."

/-- The throttling prologue of `SentinelAuditor.audit_command` at time
`now`: prune the window, short-circuit during cooldown, start a cooldown
at the cap, otherwise record the request.  `some d` means the call
returns `d` without contacting the judge; `none` means it proceeds to
the judge. -/
def auditCommandThrottle (s : AuditorState) (now : ℚ) : Option AuditDecision × AuditorState :=
  let hist := s.history.dropWhile fun t => t < now - 60
  if now < s.lastCooldown + 30 then
    (some (AuditDecision.reject (cooldownReason (pyIntTrunc (s.lastCooldown + 30 - now))) 5),
     { history := hist, lastCooldown := s.lastCooldown })
  else if 10 ≤ hist.length then
    (some (AuditDecision.reject throttleLimitReason 5),
     { history := hist, lastCooldown := now })
  else
    (none, { history := hist ++ [now], lastCooldown := s.lastCooldown })

/-- `SentinelAuditor.audit_command`: the throttle gate, then the external
judge.  `judge` abstracts the `_invoke_agent` + `_parse_json_response`
pipeline (its result is already an `AuditDecision` by the contract of
§4.4); the boolean records whether the external judge was invoked. -/
def auditCommand (judge : AuditDecision) (s : AuditorState) (now : ℚ) :
    AuditDecision × AuditorState × Bool :=
  match auditCommandThrottle s now with
  | (some d, s2) => (d, s2, false)
  | (none, s2) => (judge, s2, true)

/-! ## `main.py`: `SentinelRuntime.run_intercepted_command`

The policy engine's verdict for the command is passed in as a
`PolicyResult` (its regex evaluation is external to every claim below),
the command auditor as a function, and the host execution facility's
behaviour for this command as an `ExecOutcome`.  Audit-log writes never
affect the outcome (`_log_audit_event` swallows all exceptions) and are
not modelled. -/

/-- The dictionary returned by `PolicyEnforcer.evaluate` (all three keys
are always present). -/
structure PolicyResult where
  action : String
  rule_name : String
  reason : String

/-- What the host execution facility does with the command. -/
inductive ExecOutcome where
  | completed (returncode : Int) (stdout stderr : String)
  | timedOut (stdout stderr : Option String)
  | failed (msg : String)

/-- The payload dictionary returned by `run_intercepted_command`. -/
structure RunPayload where
  allowed : Bool
  risk_score : Int
  reason : String
  status : Option String
  returncode : Option Int
  stdout : String
  stderr : String
deriving DecidableEq, Repr

/-- `decision.to_dict()` followed by
`payload.update({"returncode": None, "stdout": "", "stderr": ""})`. -/
def rejectShapedPayload (d : AuditDecision) : RunPayload :=
  ⟨d.allowed, clamp10 d.risk_score, d.reason, none, none, "", ""⟩

/-- The shell-operator set of the execution patch. -/
def shellOperators : List String := ["|", ">", "&&", ";", "<<", ">>"]

/-- `use_shell = any(op in cmd_string for op in shell_operators)`. -/
def usesShell (cmd : String) : Bool :=
  shellOperators.any fun op => pyContains cmd op

/-- The timeout rejection reason (`{:g}` float formatting modelled by
`toString`). -/
def timeoutReason (t : ℚ) : String :=
  "Command execution timed out after " ++ toString t ++ "s."

/-- The execution phase of `run_intercepted_command` once the decision
allowed the command and the argument form was built. -/
def execPayload (decision : AuditDecision) (timeoutS : ℚ) (e : ExecOutcome) : RunPayload :=
  match e with
  | .completed rc out err =>
    ⟨decision.allowed, clamp10 decision.risk_score, decision.reason, none, some rc, out, err⟩
  | .timedOut outOpt errOpt =>
    let d := AuditDecision.reject (timeoutReason timeoutS) 10
    ⟨d.allowed, clamp10 d.risk_score, d.reason, none, none,
      (match outOpt with | some s2 => s2 | none => ""),
      (match errOpt with
       | some s2 => if s2 = "" then "Execution timeout" else s2
       | none => "Execution timeout")⟩
  | .failed msg =>
    let d := AuditDecision.reject ("Command execution failed: " ++ msg) 10
    ⟨d.allowed, clamp10 d.risk_score, d.reason, none, none, "", msg⟩

/-- `SentinelRuntime.run_intercepted_command`. -/
def runIntercepted (pr : PolicyResult) (auditFn : String → AuditDecision) (timeoutS : ℚ)
    (execu : ExecOutcome) (cmd : String) (bypass : Bool) : RunPayload :=
  if bypass = false ∧ pr.action = "block" then
    rejectShapedPayload (AuditDecision.reject
      ("Policy Violation: " ++ pr.rule_name ++ " - " ++ pr.reason) 10)
  else if bypass = false ∧ pr.action = "review" then
    let d := AuditDecision.reject ("Review Required: " ++ pr.rule_name ++ " - " ++ pr.reason) 5
    ⟨d.allowed, clamp10 d.risk_score, d.reason, some "review_required", none, "", ""⟩
  else
    let decision :=
      if bypass = false ∧ pr.action = "allow" then policyAllowDecision pr.rule_name
      else if bypass then hitlApprovedDecision
      else auditFn cmd
    if decision.allowed = false then rejectShapedPayload decision
    else if usesShell cmd then execPayload decision timeoutS execu
    else
      match shlexSplitE cmd with
      | .error msg =>
        rejectShapedPayload (AuditDecision.reject ("Command parsing failed: " ++ msg) 10)
      | .ok _ => execPayload decision timeoutS execu

theorem clamp10_nonneg (r : Int) : 0 ≤ clamp10 r := le_max_left 0 _

theorem clamp10_le_ten (r : Int) : clamp10 r ≤ 10 := by
  unfold clamp10
  omega

/-- **C9** Every `AuditDecision` the system constructs carries a risk score
already inside [0, 10]: the `reject` classmethod and the parsed-judge
construction clamp, and the three literal constructions (policy allow,
HITL bypass, lockdown allow) store 0. -/
theorem c9_risk_clamped_at_construction :
    (∀ reason r, 0 ≤ (AuditDecision.reject reason r).risk_score ∧
      (AuditDecision.reject reason r).risk_score ≤ 10) ∧
    (∀ a r m, 0 ≤ (parsedJudgeDecision a r m).risk_score ∧
      (parsedJudgeDecision a r m).risk_score ≤ 10) ∧
    (∀ n, (policyAllowDecision n).risk_score = 0) ∧
    hitlApprovedDecision.risk_score = 0 ∧
    lockdownAllowedDecision.risk_score = 0 := by
  refine ⟨fun reason r => ⟨clamp10_nonneg r, clamp10_le_ten r⟩,
    fun a r m => ⟨clamp10_nonneg r, clamp10_le_ten r⟩, fun n => rfl, rfl, rfl⟩

/-- **C10** `to_dict` always yields an in-range risk score and preserves the
`allowed` flag and the reason, whatever integer is stored in the decision. -/
theorem c10_to_dict_in_range (d : AuditDecision) :
    0 ≤ d.toDict.risk_score ∧ d.toDict.risk_score ≤ 10 ∧
    d.toDict.allowed = d.allowed ∧ d.toDict.reason = d.reason :=
  ⟨clamp10_nonneg _, clamp10_le_ten _, rfl, rfl⟩

end Sentinel

namespace Sentinel

/-! ## Claim C1: the policy `allow` fast path -/

/-- **C1** When the Policy Rule Engine returned `allow` and the bypass
flag is not set, the Runtime's result does not depend on the command
auditor at all (neither the hard-kill filter nor the semantic auditor
can influence it), and for a completed execution the payload is the
synthesized policy-allow decision (allowed, risk 0) carrying the
execution results. -/
theorem c1_policy_allow_skips_auditor (pr : PolicyResult)
    (f g : String → AuditDecision) (t : ℚ) (e : ExecOutcome) (cmd : String)
    (rc : Int) (out err : String) (ha : pr.action = "allow") :
    runIntercepted pr f t e cmd false = runIntercepted pr g t e cmd false ∧
    ((usesShell cmd = true ∨ (shlexSplitE cmd).isOk = true) →
      runIntercepted pr f t (.completed rc out err) cmd false =
        ⟨true, 0, "Allowed by policy: " ++ pr.rule_name, none, some rc, out, err⟩) := by
  constructor
  · simp [runIntercepted, ha]
  · intro h
    rcases h with h | h
    · simp [runIntercepted, ha, h, execPayload, policyAllowDecision, clamp10]
    · rcases hsp : shlexSplitE cmd with msg | ts
      · rw [hsp] at h
        simp [Except.isOk, Except.toBool] at h
      · by_cases hus : usesShell cmd
        · simp [runIntercepted, ha, hus, execPayload, policyAllowDecision, clamp10]
        · simp [runIntercepted, ha, hus, hsp, execPayload, policyAllowDecision, clamp10]

/-- Witness for C1 at a concrete command, policy result, and two auditors
that disagree everywhere. -/
theorem c1_witness :
    ((⟨"allow", "Fast Path", "ok"⟩ : PolicyResult).action = "allow") ∧
    runIntercepted ⟨"allow", "Fast Path", "ok"⟩ (fun _ => AuditDecision.reject "deny all" 10)
        15 (.completed 0 "hi" "") "echo hi" false =
      runIntercepted ⟨"allow", "Fast Path", "ok"⟩ (fun _ => ⟨true, 0, "allow all"⟩)
        15 (.completed 0 "hi" "") "echo hi" false ∧
    runIntercepted ⟨"allow", "Fast Path", "ok"⟩ (fun _ => AuditDecision.reject "deny all" 10)
        15 (.completed 0 "hi" "") "echo hi" false =
      ⟨true, 0, "Allowed by policy: Fast Path", none, some 0, "hi", ""⟩ :=
  ⟨rfl,
   (c1_policy_allow_skips_auditor ⟨"allow", "Fast Path", "ok"⟩
     (fun _ => AuditDecision.reject "deny all" 10) (fun _ => ⟨true, 0, "allow all"⟩)
     15 (.completed 0 "hi" "") "echo hi" 0 "hi" "" rfl).1,
   (c1_policy_allow_skips_auditor ⟨"allow", "Fast Path", "ok"⟩
     (fun _ => AuditDecision.reject "deny all" 10) (fun _ => ⟨true, 0, "allow all"⟩)
     15 (.completed 0 "hi" "") "echo hi" 0 "hi" "" rfl).2 (Or.inr (by decide))⟩

/-! ## Claim C2: the bypass path -/

/-- An auditor that rejects every command. -/
def rejectingAuditor : String → AuditDecision :=
  fun _ => AuditDecision.reject "Semantic rejection" 10

/-- **C2 counterexample** With `bypass_policy` set, the Runtime executes
even though the Command Auditor rejects every command: the payload is
allowed with the HITL reason and carries the execution result, so the
claim that the bypass path runs the Command Auditor and executes only on
its approval is false. -/
theorem c2_counterexample :
    (rejectingAuditor "ls").allowed = false ∧
    runIntercepted ⟨"block", "X", "y"⟩ rejectingAuditor 15 (.completed 0 "" "") "ls" true =
      ⟨true, 0, "User Approved via HITL", none, some 0, "", ""⟩ := by
  constructor
  · rfl
  · decide

/-- **C2 amended** With `bypass_policy` set, the Runtime ignores both the
policy result and the Command Auditor, synthesizes the allowed HITL
decision (risk 0), and proceeds directly to execution. -/
theorem c2_bypass_skips_auditor (pr pr2 : PolicyResult)
    (f g : String → AuditDecision) (t : ℚ) (e : ExecOutcome) (cmd : String)
    (rc : Int) (out err : String) :
    runIntercepted pr f t e cmd true = runIntercepted pr2 g t e cmd true ∧
    ((usesShell cmd = true ∨ (shlexSplitE cmd).isOk = true) →
      runIntercepted pr f t (.completed rc out err) cmd true =
        ⟨true, 0, "User Approved via HITL", none, some rc, out, err⟩) := by
  constructor
  · simp [runIntercepted]
  · intro h
    rcases h with h | h
    · simp [runIntercepted, h, execPayload, hitlApprovedDecision, clamp10]
    · rcases hsp : shlexSplitE cmd with msg | ts
      · rw [hsp] at h
        simp [Except.isOk, Except.toBool] at h
      · by_cases hus : usesShell cmd
        · simp [runIntercepted, hus, execPayload, hitlApprovedDecision, clamp10]
        · simp [runIntercepted, hus, hsp, execPayload, hitlApprovedDecision, clamp10]

/-- Witness for the amended C2 at concrete inputs. -/
theorem c2_witness :
    runIntercepted ⟨"block", "X", "y"⟩ rejectingAuditor 15 (.completed 7 "o" "e") "cat f" true =
      runIntercepted ⟨"allow", "Z", "w"⟩ (fun _ => ⟨true, 0, "ok"⟩) 15
        (.completed 7 "o" "e") "cat f" true ∧
    runIntercepted ⟨"block", "X", "y"⟩ rejectingAuditor 15 (.completed 7 "o" "e") "cat f" true =
      ⟨true, 0, "User Approved via HITL", none, some 7, "o", "e"⟩ :=
  ⟨(c2_bypass_skips_auditor ⟨"block", "X", "y"⟩ ⟨"allow", "Z", "w"⟩ rejectingAuditor
      (fun _ => ⟨true, 0, "ok"⟩) 15 (.completed 7 "o" "e") "cat f" 7 "o" "e").1,
   (c2_bypass_skips_auditor ⟨"block", "X", "y"⟩ ⟨"allow", "Z", "w"⟩ rejectingAuditor
      (fun _ => ⟨true, 0, "ok"⟩) 15 (.completed 7 "o" "e") "cat f" 7 "o" "e").2
     (Or.inr (by decide))⟩

end Sentinel

namespace Sentinel

/-! ## Claim C3: the semantic auditor's rate limiter -/

/-- **C3** With cap 10, window 60s, cooldown 30s: when ten recorded calls
remain inside the trailing window and the auditor is out of cooldown (as
it must be right after a recorded call), the next `audit_command` call
starts the cooldown at the current time and returns the throttled
rejection at risk 5 without invoking the judge; and from any state whose
cooldown started at `now`, every call made less than 30 seconds after
`now` returns the cooldown rejection at risk 5, again without invoking
the judge and without moving the cooldown start. -/
theorem c3_rate_limiter (s : AuditorState) (now : ℚ) (judge : AuditDecision)
    (hcd : s.lastCooldown + 30 ≤ now)
    (hcap : 10 ≤ (s.history.dropWhile fun t => t < now - 60).length) :
    auditCommand judge s now =
      (AuditDecision.reject throttleLimitReason 5,
       ⟨s.history.dropWhile fun t => t < now - 60, now⟩, false) ∧
    (∀ (s2 : AuditorState) (judge2 : AuditDecision) (now2 : ℚ),
      s2.lastCooldown = now → now2 < now + 30 →
      auditCommand judge2 s2 now2 =
        (AuditDecision.reject (cooldownReason (pyIntTrunc (now + 30 - now2))) 5,
         ⟨s2.history.dropWhile fun t => t < now2 - 60, now⟩, false)) := by
  constructor
  · unfold auditCommand auditCommandThrottle
    have h1 : ¬ (now < s.lastCooldown + 30) := not_lt.mpr hcd
    simp [h1, hcap]
  · intro s2 judge2 now2 hlc h2
    unfold auditCommand auditCommandThrottle
    have h1 : now2 < s2.lastCooldown + 30 := by
      rw [hlc]
      exact h2
    simp [h1, hlc, h2]

/-- The throttle state after ten recorded calls at seconds 100–109. -/
def c3State : AuditorState :=
  ⟨[100, 101, 102, 103, 104, 105, 106, 107, 108, 109], 0⟩

/-- Witness for C3: the eleventh call at t=110 is throttled and starts
the cooldown; a call at t=120 is still throttled. -/
theorem c3_witness :
    ((c3State.lastCooldown + 30 : ℚ) ≤ 110) ∧
    (10 ≤ (c3State.history.dropWhile fun t => t < (110 : ℚ) - 60).length) ∧
    auditCommand ⟨true, 1, "judge says ok"⟩ c3State 110 =
      (AuditDecision.reject throttleLimitReason 5,
       ⟨c3State.history.dropWhile fun t => t < (110 : ℚ) - 60, 110⟩, false) ∧
    auditCommand ⟨true, 2, "judge again"⟩
        ⟨[100, 101, 102, 103, 104, 105, 106, 107, 108, 109], 110⟩ 120 =
      (AuditDecision.reject (cooldownReason (pyIntTrunc ((110 : ℚ) + 30 - 120))) 5,
       ⟨([100, 101, 102, 103, 104, 105, 106, 107, 108, 109] : List ℚ).dropWhile
          fun t => t < (120 : ℚ) - 60, 110⟩, false) :=
  ⟨by norm_num [c3State], by norm_num [c3State, List.dropWhile],
   (c3_rate_limiter c3State 110 ⟨true, 1, "judge says ok"⟩
     (by norm_num [c3State]) (by norm_num [c3State, List.dropWhile])).1,
   (c3_rate_limiter c3State 110 ⟨true, 1, "judge says ok"⟩
     (by norm_num [c3State]) (by norm_num [c3State, List.dropWhile])).2
     ⟨[100, 101, 102, 103, 104, 105, 106, 107, 108, 109], 110⟩ ⟨true, 2, "judge again"⟩
     120 rfl (by norm_num)⟩

end Sentinel

namespace Sentinel

/-! ## Claim C4: lockdown allowlist matching -/

/-- Lockdown constitution with `allowed_commands = ["git status"]`. -/
def lockdownGitConfig : HardKillConfig :=
  ⟨[], [], [], [], [], true, ["git status"]⟩

/-- Lockdown constitution with `allowed_commands = ["ls"]`. -/
def lockdownLsConfig : HardKillConfig :=
  ⟨[], [], [], [], [], true, ["ls"]⟩

/-- **C4 counterexample** `"git statusx"` extends the allowed string
`"git status"` with a suffix that has no leading whitespace, yet
`_is_allowed_in_lockdown` accepts it: `_is_safe_lockdown_suffix` only
requires that the first non-whitespace character of the suffix not be a
shell-control character, it never requires leading whitespace. -/
theorem c4_counterexample :
    isAllowedInLockdown lockdownGitConfig "git statusx" = some true := by decide

/-- **C4 amended** A command is matched as allowed only if it contains no
shell-control metacharacter anywhere; it then matches when it exactly
equals a configured entry, or extends an entry by a suffix whose first
non-whitespace character (if any) is not a shell-control character —
leading whitespace is not required — or when its resolved executable
token or basename equals an entry.  In particular `"git status"` is
allowed, `"git status; rm -rf /"` is rejected, and both
`"git status --short"` and `"git statusx"` match. -/
theorem c4_lockdown_allowlist :
    (∀ (cfg : HardKillConfig) (cmd : String),
      isAllowedInLockdown cfg cmd = some true →
      containsShellControl (pyLower (pyStrip cmd)) = false) ∧
    isAllowedInLockdown lockdownGitConfig "git status" = some true ∧
    isAllowedInLockdown lockdownGitConfig "git status; rm -rf /" = some false ∧
    isAllowedInLockdown lockdownGitConfig "git status --short" = some true ∧
    isAllowedInLockdown lockdownGitConfig "git statusx" = some true ∧
    isAllowedInLockdown lockdownGitConfig "gitstatus" = some false ∧
    isAllowedInLockdown lockdownLsConfig "/bin/ls -la" = some true := by
  refine ⟨?_, by decide, by decide, by decide, by decide, by decide, by decide⟩
  intro cfg cmd h
  by_cases hsc : containsShellControl (pyLower (pyStrip cmd)) = true
  · exfalso
    unfold isAllowedInLockdown at h
    by_cases h0 : cfg.allowed_commands = []
    · simp [h0] at h
    · simp [h0, hsc] at h
  · simpa using hsc

/-- Witness for C4: the allowed command `"git status"` satisfies the
shell-control conclusion of the universal part. -/
theorem c4_witness :
    isAllowedInLockdown lockdownGitConfig "git status" = some true ∧
    containsShellControl (pyLower (pyStrip "git status")) = false :=
  ⟨by decide, c4_lockdown_allowlist.1 lockdownGitConfig "git status" (by decide)⟩

end Sentinel

namespace Sentinel

/-! ## Claim C5: blocked-string precedence in the hard-kill filter -/

/-- **C5** For every non-empty normalized command, with lockdown off,
whose lowered form contains a configured blocked string (first match
`b`), and which also invokes a blocked network tool naming a URL whose
domain is not whitelisted, the filter resolves with the blocked-string
rejection naming `b` at risk 10 — not with the network rejection: the
checks run in source order (empty, lockdown, blocked strings, blocked
paths, blocked tools, base64-to-shell, network) and the first match
short-circuits, which is the shape of `hardKillFilter` itself. -/
theorem c5_blocked_string_precedence (cfg : HardKillConfig) (n b u : String)
    (hne : ¬ pyStrip n = "")
    (hld : cfg.lockdown_mode = false)
    (hb : findBlockedString cfg.blocked_strings (pyLower n) = some b)
    (hnet : containsNetworkTool cfg n = true)
    (hu : u ∈ extractUrls n)
    (hw : ∀ d, extractDomain u = some d → isWhitelistedDomain cfg d = false) :
    hardKillFilter cfg n =
      some (some (AuditDecision.reject ("Blocked token detected: " ++ b) 10)) := by
  unfold hardKillFilter
  simp [hne, hld, hb]

/-- The constitution used by the C5 witness. -/
def c5Config : HardKillConfig :=
  ⟨["sudo", "rm -rf", "mkfs"], ["/etc/"], ["python"], ["curl", "wget"],
   ["example.com"], false, []⟩

/-- Witness for C5: `curl https://evil.com/sudo` contains the blocked
string `sudo`, is a blocked network tool invocation with a
non-whitelisted URL, and is rejected for the blocked string. -/
theorem c5_witness :
    (¬ pyStrip "curl https://evil.com/sudo" = "") ∧
    findBlockedString c5Config.blocked_strings (pyLower "curl https://evil.com/sudo") =
      some "sudo" ∧
    containsNetworkTool c5Config "curl https://evil.com/sudo" = true ∧
    "https://evil.com/sudo" ∈ extractUrls "curl https://evil.com/sudo" ∧
    hardKillFilter c5Config "curl https://evil.com/sudo" =
      some (some (AuditDecision.reject ("Blocked token detected: " ++ "sudo") 10)) :=
  ⟨by decide, by decide, by decide, by decide,
   c5_blocked_string_precedence c5Config "curl https://evil.com/sudo" "sudo"
     "https://evil.com/sudo" (by decide) rfl (by decide) (by decide) (by decide)
     (by
       intro d hd
       have he : extractDomain "https://evil.com/sudo" = some "evil.com" := by decide
       rw [he] at hd
       cases hd
       decide)⟩

/-! ## Claim C6: fail-closed totality of `CommandAuditor.audit` -/

/-- `CommandAuditor._load_config({})`: the defaults of an empty
constitution. -/
def defaultConstitutionConfig : HardKillConfig :=
  ⟨["sudo", "rm -rf", "mkfs"], ["~/.ssh", "~/.env", "/etc/"], ["python", "pip", "npm"],
   ["curl", "wget"], [], false, []⟩

/-- **C6** With no semantic auditor configured, a command the hard-kill
filter cannot resolve and the lockdown allowlist does not match is
rejected fail-closed with the auditor-unavailable reason — but `audit`
is *not* total: on `cat \U00110000` the normalizer's `\U` pass calls
`chr(0x110000)`, the `ValueError` is uncaught, and `audit` raises
instead of returning a decision (the `none` outcome of the model). -/
theorem c6_fail_closed_but_audit_raises :
    audit defaultConstitutionConfig none "frobnicate the widget" =
      some (AuditDecision.reject "LLM auditor unavailable; fail-closed policy applied." 9) ∧
    audit defaultConstitutionConfig none "cat \\U00110000" = none := by decide

/-! ## Claim C7: totality of the Normalizer -/

/-- **C7** `_normalize_command` is not total: on the ten-character input
`\U00110000` the `\U` substitution calls `chr(0x110000)`, which raises
`ValueError` outside any try/except (`none` in the model).  The ANSI-C
decode step is best-effort as claimed: a payload that fails to decode
(here the truncated `\u12`) is kept as the original fragment. -/
theorem c7_normalizer_raises_on_huge_escape :
    normalizeCommand "\\U00110000" = none ∧
    pyUnicodeEscape "\\u12" = none ∧
    decodeAnsiCStrings (String.mk ['$', quoteChar, '\\', 'u', '1', '2', quoteChar]) =
      String.mk ['\\', 'u', '1', '2'] := by decide

/-! ## Claim C8: idempotence of normalization -/

/-- The command `$\'a\'` (backslash-escaped apostrophes around `a`). -/
def c8Input : String :=
  String.mk ['$', '\\', quoteChar, 'a', '\\', quoteChar]

/-- What one normalization pass produces for `c8Input`: `$'a'`. -/
def c8Mid : String :=
  String.mk ['$', quoteChar, 'a', quoteChar]

/-- **C8 counterexample** Normalization is not idempotent: the backslash
stripping pass turns `$\'a\'` into `$'a'`, which the ANSI-C-quoting pass
of a second normalization decodes to `a`. -/
theorem c8_counterexample :
    normalizeCommand c8Input = some c8Mid ∧
    normalizeCommand c8Mid = some "a" ∧
    c8Mid ≠ "a" := by decide

/-- **C8 amended** Normalization is idempotent on the spec's
representative obfuscation corpus: `$'\x72\x6d'` normalizes to `rm` and
`s<U+200B>udo` to `sudo`, and both images are fixed points of
normalization. -/
theorem c8_corpus_idempotence :
    normalizeCommand
        (String.mk ['$', quoteChar, '\\', 'x', '7', '2', '\\', 'x', '6', 'd', quoteChar]) =
      some "rm" ∧
    normalizeCommand "rm" = some "rm" ∧
    normalizeCommand (String.mk ['s', Char.ofNat 0x200B, 'u', 'd', 'o']) = some "sudo" ∧
    normalizeCommand "sudo" = some "sudo" := by decide

end Sentinel
